import Mathlib

/-!
Verification development for the `sven` secret-store daemon
(`src/daemon.rs`, `src/db.rs`).

The daemon's protocol types, request handler, persistence-worker loop and
lifecycle checks are shallowly embedded as pure Lean functions.  Stateful
Rust code becomes explicit state passing:

* the in-memory `HashMap<String, String>` secret cache and the sqlite
  `variables` table (whose `key` column is a PRIMARY KEY) are both modelled
  as association lists with unique keys, where insertion replaces any
  existing record for the key (`INSERT OR REPLACE` / `HashMap::insert`);
* the GPG cipher is an explicit fallible parameter
  `encrypt : String → Except String String`;
* the worker's reply channel (`std::sync::mpsc`) is modelled by a value of
  type `Option (Except String String)`, `none` standing for a `recv` error
  (the worker dropped the reply sender);
* serde_json's externally tagged enum encoding is modelled at the JSON
  value level by an explicit `Json` AST.
-/

namespace Sven

/-- Commands accepted by the daemon, `src/daemon.rs` lines 14–21
(`enum DaemonCommand`). -/
inductive DaemonCommand where
  | GetSecrets (shell : String)
  | AddSecret (key value : String)
  | RemoveSecret (key : String)
  | ListSecrets
  | Shutdown
  deriving DecidableEq

/-- Responses produced by the daemon, `src/daemon.rs` lines 24–30
(`enum DaemonResponse`). -/
inductive DaemonResponse where
  | Secrets (pairs : List (String × String))
  | KeyList (keys : List String)
  | Success (message : String)
  | Error (message : String)
  deriving DecidableEq

/-- JSON values, the wire form of the protocol.  serde_json serializes the
two enums above into this fragment (strings, arrays, objects); numbers,
booleans and null never occur in the canonical encoding of either enum. -/
inductive Json where
  | str (s : String)
  | arr (items : List Json)
  | obj (fields : List (String × Json))

/-- serde_json's externally tagged encoding of `DaemonCommand`: unit
variants become bare strings, struct variants become one-key objects whose
value is the object of fields, in declaration order. -/
def encodeCommand : DaemonCommand → Json
  | .GetSecrets s => .obj [("GetSecrets", .obj [("shell", .str s)])]
  | .AddSecret k v => .obj [("AddSecret", .obj [("key", .str k), ("value", .str v)])]
  | .RemoveSecret k => .obj [("RemoveSecret", .obj [("key", .str k)])]
  | .ListSecrets => .str "ListSecrets"
  | .Shutdown => .str "Shutdown"

/-- Decoding of `DaemonCommand` from its canonical wire form
(`serde_json::from_str` at `src/daemon.rs` line 239). -/
def decodeCommand : Json → Option DaemonCommand
  | .str "ListSecrets" => some .ListSecrets
  | .str "Shutdown" => some .Shutdown
  | .obj [("GetSecrets", .obj [("shell", .str s)])] => some (.GetSecrets s)
  | .obj [("AddSecret", .obj [("key", .str k), ("value", .str v)])] => some (.AddSecret k v)
  | .obj [("RemoveSecret", .obj [("key", .str k)])] => some (.RemoveSecret k)
  | _ => none

/-- A `(String, String)` tuple serializes as a two-element JSON array. -/
def encodePair (p : String × String) : Json :=
  .arr [.str p.1, .str p.2]

/-- serde_json's externally tagged encoding of `DaemonResponse`: every
variant is a newtype variant, so each becomes a one-key object. -/
def encodeResponse : DaemonResponse → Json
  | .Secrets l => .obj [("Secrets", .arr (l.map encodePair))]
  | .KeyList l => .obj [("KeyList", .arr (l.map Json.str))]
  | .Success m => .obj [("Success", .str m)]
  | .Error m => .obj [("Error", .str m)]

/-- Decode one `(String, String)` tuple. -/
def decodePair : Json → Option (String × String)
  | .arr [.str k, .str v] => some (k, v)
  | _ => none

/-- Decode a JSON array of tuples. -/
def decodePairs : List Json → Option (List (String × String))
  | [] => some []
  | j :: rest =>
    match decodePair j, decodePairs rest with
    | some p, some ps => some (p :: ps)
    | _, _ => none

/-- Decode a JSON array of strings. -/
def decodeStrings : List Json → Option (List String)
  | [] => some []
  | .str s :: rest => (decodeStrings rest).map (fun l => s :: l)
  | _ => none

/-- Decoding of `DaemonResponse` from its canonical wire form
(`serde_json::from_str` at `src/daemon.rs` line 345). -/
def decodeResponse : Json → Option DaemonResponse
  | .obj [("Secrets", .arr js)] => (decodePairs js).map DaemonResponse.Secrets
  | .obj [("KeyList", .arr js)] => (decodeStrings js).map DaemonResponse.KeyList
  | .obj [("Success", .str m)] => some (.Success m)
  | .obj [("Error", .str m)] => some (.Error m)
  | _ => none

/-!
Association-list model of the key-unique maps: the in-memory
`HashMap<String, String>` secret cache (`src/daemon.rs` line 129) and the
sqlite `variables` table keyed by its PRIMARY KEY column
(`src/db.rs` lines 39–44).
-/

/-- The daemon's in-memory secret cache: key → plaintext. -/
abbrev Cache := List (String × String)

/-- The durable store: key → ciphertext (`variables` table). -/
abbrev Store := List (String × String)

/-- Value associated with `k`, if any (`HashMap::get` / `SELECT`). -/
def assocLookup (k : String) : List (String × String) → Option String
  | [] => none
  | (k2, v) :: rest => if k2 = k then some v else assocLookup k rest

/-- Drop every record for `k` (`HashMap::remove` /
`DELETE FROM variables WHERE key = ?1`). -/
def assocErase (k : String) : List (String × String) → List (String × String)
  | [] => []
  | (k2, v) :: rest =>
    if k2 = k then assocErase k rest else (k2, v) :: assocErase k rest

/-- Insert `k ↦ v`, replacing any existing record for `k`
(`HashMap::insert` / `INSERT OR REPLACE`, the key being a PRIMARY KEY). -/
def assocInsert (k v : String) (l : List (String × String)) :
    List (String × String) :=
  (k, v) :: assocErase k l

/-- Number of records for key `k`. -/
def keyCount (k : String) : List (String × String) → Nat
  | [] => 0
  | (k2, _) :: rest => (if k2 = k then 1 else 0) + keyCount k rest

/-!
The database operations, `src/db.rs`.  The cipher is an explicit parameter;
`Database::add_secret` first encrypts the value (fallible), then stores the
ciphertext; `Database::remove_secret` deletes the row, and deleting an
absent key is a successful no-op for SQL `DELETE`.
-/

/-- `Database::add_secret`, `src/db.rs` lines 56–63. -/
def add_secret (encrypt : String → Except String String) (store : Store)
    (key value : String) : Except String Store :=
  match encrypt value with
  | .error e => .error e
  | .ok ct => .ok (assocInsert key ct store)

/-- `Database::remove_secret`, `src/db.rs` lines 65–69. -/
def remove_secret (store : Store) (key : String) : Except String Store :=
  .ok (assocErase key store)

/-!
The persistence worker, `src/daemon.rs` lines 140–168 and 213–224: a single
dedicated thread receives `DbCommand`s over one `std::sync::mpsc` queue and
processes them in arrival order; `Shutdown` breaks the loop.
-/

/-- `enum DbCommand`, `src/daemon.rs` lines 213–224 (the reply channel each
mutation carries is represented by the reply in the worker's output). -/
inductive DbCommand where
  | addSecret (key value : String)
  | removeSecret (key : String)
  | shutdown
  deriving DecidableEq

/-- One iteration of the worker loop body on a mutating command,
`src/daemon.rs` lines 150–159: apply the database operation and produce the
reply sent back on that request's private channel.  On failure the store is
unchanged and the reply carries the error. -/
def dbWorkerStep (encrypt : String → Except String String) (store : Store) :
    DbCommand → Store × Except String String
  | .addSecret k v =>
    match add_secret encrypt store k v with
    | .ok s2 => (s2, .ok ("Added secret: " ++ k))
    | .error e => (store, .error e)
  | .removeSecret k =>
    match remove_secret store k with
    | .ok s2 => (s2, .ok ("Removed secret: " ++ k))
    | .error e => (store, .error e)
  | .shutdown => (store, .ok "")

/-- The worker's processing loop, `src/daemon.rs` lines 148–162, run on the
queue contents in arrival order: each command is processed to completion
(state threaded linearly, so never two at once) before the next is taken;
`DbCommand::Shutdown` breaks the loop and nothing after it is processed.
Returns the final store and the replies in processing order. -/
def dbWorkerLoop (encrypt : String → Except String String) :
    Store → List DbCommand → Store × List (Except String String)
  | store, [] => (store, [])
  | store, cmd :: rest =>
    match cmd with
    | .shutdown => (store, [])
    | .addSecret k v =>
      let p := dbWorkerStep encrypt store (.addSecret k v)
      let q := dbWorkerLoop encrypt p.1 rest
      (q.1, p.2 :: q.2)
    | .removeSecret k =>
      let p := dbWorkerStep encrypt store (.removeSecret k)
      let q := dbWorkerLoop encrypt p.1 rest
      (q.1, p.2 :: q.2)

/-!
The per-connection request handler, `src/daemon.rs` lines 229–313.
`handle_client` reads one line, decodes it with serde_json (returning an
I/O-level `Err` before any domain logic when the decode fails), dispatches
on the command, and writes exactly one response line back.

For the two mutating commands the handler sends the command to the worker
queue and blocks on `resp_rx.recv()`; the observed reply is the `reply`
parameter here (`none` models a `RecvError`: the worker dropped the
sender).  `db_tx.send` itself is modelled as succeeding (the worker holds
the receiving end for the daemon's lifetime).
-/

/-- Everything observable a single `handle_client` call does: the response
written back (if any), the cache afterwards, the commands sent to the
worker queue, whether the shutdown channel was signalled, and the
I/O-level error it returns (if any). -/
structure HandlerResult where
  response : Option DaemonResponse
  cache : Cache
  sent : List DbCommand
  shutdownSignaled : Bool
  ioError : Option String
  deriving DecidableEq

/-- Dispatch on a decoded command, `src/daemon.rs` lines 242–306.  Reads
(`GetSecrets`, `ListSecrets`) snapshot the cache under the lock; mutations
forward to the worker and, only when the reply is a confirmed success,
update the cache; worker errors and a dropped reply channel both produce an
`Error` response with the cache untouched; `Shutdown` signals the shutdown
channel. -/
def handleCommand (cache : Cache) (reply : Option (Except String String)) :
    DaemonCommand → HandlerResult
  | .GetSecrets _ => ⟨some (.Secrets cache), cache, [], false, none⟩
  | .ListSecrets => ⟨some (.KeyList (cache.map Prod.fst)), cache, [], false, none⟩
  | .AddSecret k v =>
    match reply with
    | some (.ok m) =>
      ⟨some (.Success m), assocInsert k v cache, [.addSecret k v], false, none⟩
    | some (.error e) =>
      ⟨some (.Error ("Failed to add secret: " ++ e)), cache,
        [.addSecret k v], false, none⟩
    | none =>
      ⟨some (.Error "Failed to communicate with database thread: receiving on an empty and disconnected channel"),
        cache, [.addSecret k v], false, none⟩
  | .RemoveSecret k =>
    match reply with
    | some (.ok m) =>
      ⟨some (.Success m), assocErase k cache, [.removeSecret k], false, none⟩
    | some (.error e) =>
      ⟨some (.Error ("Failed to remove secret: " ++ e)), cache,
        [.removeSecret k], false, none⟩
    | none =>
      ⟨some (.Error "Failed to communicate with database thread: receiving on an empty and disconnected channel"),
        cache, [.removeSecret k], false, none⟩
  | .Shutdown => ⟨some (.Success "Daemon shutting down"), cache, [], true, none⟩

/-- `Daemon::handle_client`, `src/daemon.rs` lines 229–313, for a
connection whose single request line carries the JSON value `request`.  An
undecodable command makes the function return
`Err(SvenError::ConfigError("Invalid command: …"))` (line 240) before any
cache access, worker send, or response write. -/
def handle_client (request : Json) (cache : Cache)
    (reply : Option (Except String String)) : HandlerResult :=
  match decodeCommand request with
  | none => ⟨none, cache, [], false, some "Invalid command"⟩
  | some cmd => handleCommand cache reply cmd

/-!
End-to-end mutation pipeline: the daemon state seen by one serialized
mutation — the handler enqueues, the worker applies the database operation
and replies, the handler then applies the confirmed mutation to the cache.
-/

/-- The daemon's mutable state: durable store plus in-memory cache. -/
structure DaemonState where
  store : Store
  cache : Cache
  deriving DecidableEq

/-- One `AddSecret{key, value}` request processed end to end
(handler → worker → handler), `src/daemon.rs` lines 257–279 with the worker
body at lines 150–154. -/
def processAddSecret (encrypt : String → Except String String)
    (st : DaemonState) (k v : String) : DaemonState × HandlerResult :=
  let p := dbWorkerStep encrypt st.store (.addSecret k v)
  let hr := handleCommand st.cache (some p.2) (.AddSecret k v)
  (⟨p.1, hr.cache⟩, hr)

/-- One `RemoveSecret{key}` request processed end to end,
`src/daemon.rs` lines 280–301 with the worker body at lines 155–159. -/
def processRemoveSecret (encrypt : String → Except String String)
    (st : DaemonState) (k : String) : DaemonState × HandlerResult :=
  let p := dbWorkerStep encrypt st.store (.removeSecret k)
  let hr := handleCommand st.cache (some p.2) (.RemoveSecret k)
  (⟨p.1, hr.cache⟩, hr)

/-!
Lifecycle, `src/daemon.rs` lines 56–116.  The relevant filesystem state is
the pid (marker) file under the runtime directory, the socket (IPC
endpoint) file, and the set of currently existing process ids (`/proc`).
-/

/-- The filesystem state the lifecycle functions observe and mutate:
content of the pid marker file when it exists, whether the socket
(endpoint) file exists, and which process ids currently exist. -/
structure FileSystem where
  pidFile : Option String
  socketExists : Bool
  procs : List Nat
  deriving DecidableEq

/-- Strip leading and trailing whitespace (Rust `str::trim`). -/
def trimChars (l : List Char) : List Char :=
  ((l.dropWhile Char.isWhitespace).reverse.dropWhile Char.isWhitespace).reverse

/-- Accumulate the value of a digit sequence, most significant first. -/
def digitsValAux (acc : Nat) : List Char → Nat
  | [] => acc
  | c :: rest => digitsValAux (acc * 10 + (c.toNat - 48)) rest

/-- Rust `str::parse::<u32>` on a trimmed line: optional leading `+`, then
one or more ASCII digits, value below `2^32`; anything else fails. -/
def parsePidChars (l : List Char) : Option Nat :=
  let t := trimChars l
  let t2 := match t with
            | '+' :: rest => rest
            | _ => t
  if (!t2.isEmpty) && t2.all Char.isDigit then
    let n := digitsValAux 0 t2
    if n < 4294967296 then some n else none
  else none

/-- `line.trim().parse::<u32>()`, `src/daemon.rs` line 109. -/
def parsePid (s : String) : Option Nat :=
  parsePidChars s.data

/-- The first line of the file, which is what `read_line` reads
(`src/daemon.rs` line 107); the terminating newline, if present, is
whitespace and is later removed by the trim. -/
def firstLine (s : String) : String :=
  String.mk (s.data.takeWhile (fun c => c != '\n'))

/-- `Daemon::is_daemon_running`, `src/daemon.rs` lines 98–116: `Ok(false)`
when the pid file is absent; otherwise read its first line, parse the pid
(an unparseable pid is a `ConfigError`, not `false`), and report whether
`/proc/<pid>` exists. -/
def is_daemon_running (fs : FileSystem) : Except String Bool :=
  match fs.pidFile with
  | none => .ok false
  | some content =>
    match parsePid (firstLine content) with
    | none => .error "Invalid PID in PID file"
    | some pid => .ok (decide (pid ∈ fs.procs))

/-- `Daemon::start_daemon`, `src/daemon.rs` lines 56–95, up to the point
where the daemon process is forked: the liveness check runs before any
filesystem mutation; when it rejects (or errors) nothing is changed.
Otherwise the stale socket file is removed (lines 63–66) and the marker
file is written with the new daemon's pid — the write is performed by the
daemonize collaborator configured with `pid_file` (line 79); per the spec
it writes the marker file with the new process id. -/
def start_daemon (fs : FileSystem) (newPid : Nat) :
    Except String Unit × FileSystem :=
  match is_daemon_running fs with
  | .error e => (.error e, fs)
  | .ok true => (.error "Daemon is already running", fs)
  | .ok false => (.ok (), ⟨some (toString newPid), false, fs.procs⟩)

/-!
Shutdown, `src/daemon.rs` lines 193–207 and line 91.  After the shutdown
channel fires, `run_daemon` sends `DbCommand::Shutdown` to the worker
queue, removes the socket file, and returns; `start_daemon` then calls
`std::process::exit(0)`.  The spawned acceptor and worker threads are
never joined or otherwise stopped before the exit.
-/

/-- The distinguishable steps a graceful shutdown could perform. -/
inductive ShutdownEvent where
  | stopAcceptor
  | sendWorkerShutdown
  | waitWorkerDrain
  | removeEndpointFile
  | processExit
  deriving DecidableEq

/-- The sequence of shutdown steps the daemon actually performs, read off
`src/daemon.rs` lines 199–207 (send `DbCommand::Shutdown`, remove the
socket file, return `Ok`) followed by `std::process::exit(0)` at line 91.
No join on the worker thread and no stop of the acceptor loop appear in
the source: both spawned threads run until the process exits. -/
def shutdownSequence : List ShutdownEvent :=
  [ShutdownEvent.sendWorkerShutdown, ShutdownEvent.removeEndpointFile,
    ShutdownEvent.processExit]

/-! Helper lemmas. -/

theorem decodePairs_map (l : List (String × String)) :
    decodePairs (l.map encodePair) = some l := by
  induction l with
  | nil => rfl
  | cons p rest ih => simp [decodePairs, decodePair, encodePair, ih]

theorem decodeStrings_map (l : List String) :
    decodeStrings (l.map Json.str) = some l := by
  induction l with
  | nil => rfl
  | cons s rest ih => simp [decodeStrings, ih]

theorem keyCount_assocErase (k : String) (l : List (String × String)) :
    keyCount k (assocErase k l) = 0 := by
  induction l with
  | nil => rfl
  | cons p rest ih =>
    cases p with
    | mk k2 v =>
      by_cases h : k2 = k
      · simp [assocErase, h, ih]
      · simp [assocErase, keyCount, h, ih]

theorem keyCount_assocInsert (k v : String) (l : List (String × String)) :
    keyCount k (assocInsert k v l) = 1 := by
  simp [assocInsert, keyCount, keyCount_assocErase]

theorem assocLookup_assocInsert (k v : String) (l : List (String × String)) :
    assocLookup k (assocInsert k v l) = some v := by
  simp [assocInsert, assocLookup]

theorem assocErase_of_lookup_none (k : String) (l : List (String × String))
    (h : assocLookup k l = none) : assocErase k l = l := by
  induction l with
  | nil => rfl
  | cons p rest ih =>
    cases p with
    | mk k2 v =>
      by_cases hk : k2 = k
      · simp [assocLookup, hk] at h
      · simp only [assocLookup, hk, if_false] at h
        simp [assocErase, hk, ih h]

/-! Claim theorems. -/

/-- C1: for every `AddSecret` or `RemoveSecret` command, if the persistence
worker does not report success for the durable mutation — it reports an
error, or the reply channel is dropped — the request handler produces an
`Error(message)` response and leaves the secret cache completely unchanged;
the cache is mutated only on a confirmed success. -/
theorem mutation_failure_leaves_cache_unchanged (cache : Cache)
    (reply : Option (Except String String))
    (h : ∀ m, reply ≠ some (Except.ok m)) (k v : String) :
    ((handleCommand cache reply (.AddSecret k v)).cache = cache ∧
      ∃ e, (handleCommand cache reply (.AddSecret k v)).response =
        some (.Error e)) ∧
    ((handleCommand cache reply (.RemoveSecret k)).cache = cache ∧
      ∃ e, (handleCommand cache reply (.RemoveSecret k)).response =
        some (.Error e)) := by
  cases reply with
  | none => exact ⟨⟨rfl, _, rfl⟩, rfl, _, rfl⟩
  | some r =>
    cases r with
    | ok m => exact absurd rfl (h m)
    | error e => exact ⟨⟨rfl, _, rfl⟩, rfl, _, rfl⟩

theorem mutation_failure_leaves_cache_unchanged_witness :
    ((handleCommand [("K", "V")] (some (Except.error "boom"))
        (.AddSecret "A" "1")).cache = [("K", "V")] ∧
      ∃ e, (handleCommand [("K", "V")] (some (Except.error "boom"))
        (.AddSecret "A" "1")).response = some (.Error e)) ∧
    ((handleCommand [("K", "V")] (some (Except.error "boom"))
        (.RemoveSecret "A")).cache = [("K", "V")] ∧
      ∃ e, (handleCommand [("K", "V")] (some (Except.error "boom"))
        (.RemoveSecret "A")).response = some (.Error e)) :=
  mutation_failure_leaves_cache_unchanged [("K", "V")]
    (some (Except.error "boom")) (by intro m hm; simp at hm) "A" "1"

/-- C2: every mutating request funnels through the single worker queue and
is processed by the one worker loop strictly in arrival order, one at a
time: the loop's effect on a queue is the sequential composition of its
effects on any shutdown-free prefix and on the rest (earlier requests are
fully applied, and replied to, before later ones, with the store threaded
linearly through the sole owner), and a `Shutdown` command terminates the
loop so that nothing after it is processed. -/
theorem worker_processes_queue_fifo (encrypt : String → Except String String)
    (q1 q2 rest : List DbCommand) (store : Store)
    (h : DbCommand.shutdown ∉ q1) :
    dbWorkerLoop encrypt store (q1 ++ q2) =
      ((dbWorkerLoop encrypt (dbWorkerLoop encrypt store q1).1 q2).1,
        (dbWorkerLoop encrypt store q1).2 ++
          (dbWorkerLoop encrypt (dbWorkerLoop encrypt store q1).1 q2).2) ∧
    dbWorkerLoop encrypt store (DbCommand.shutdown :: rest) = (store, []) := by
  constructor
  · induction q1 generalizing store with
    | nil => simp [dbWorkerLoop]
    | cons cmd restq ih =>
      have hrest : DbCommand.shutdown ∉ restq := by
        intro hm; exact h (List.mem_cons_of_mem _ hm)
      cases cmd with
      | shutdown => exact absurd (List.mem_cons_self _ _) h
      | addSecret k v =>
        simp only [List.cons_append, dbWorkerLoop, List.append_eq]
        rw [ih _ hrest]
      | removeSecret k =>
        simp only [List.cons_append, dbWorkerLoop, List.append_eq]
        rw [ih _ hrest]
  · rfl

theorem worker_processes_queue_fifo_witness :
    dbWorkerLoop (fun s => Except.ok s) []
        ([DbCommand.addSecret "A" "1"] ++ [DbCommand.removeSecret "A"]) =
      ((dbWorkerLoop (fun s => Except.ok s)
          (dbWorkerLoop (fun s => Except.ok s) []
            [DbCommand.addSecret "A" "1"]).1 [DbCommand.removeSecret "A"]).1,
        (dbWorkerLoop (fun s => Except.ok s) []
            [DbCommand.addSecret "A" "1"]).2 ++
          (dbWorkerLoop (fun s => Except.ok s)
            (dbWorkerLoop (fun s => Except.ok s) []
              [DbCommand.addSecret "A" "1"]).1
            [DbCommand.removeSecret "A"]).2) ∧
    dbWorkerLoop (fun s => Except.ok s) []
        (DbCommand.shutdown :: [DbCommand.addSecret "B" "2"]) = ([], []) :=
  worker_processes_queue_fifo (fun s => Except.ok s)
    [DbCommand.addSecret "A" "1"] [DbCommand.removeSecret "A"]
    [DbCommand.addSecret "B" "2"] [] (by decide)

/-- C3: `is_daemon_running` answers `Ok(true)` exactly when the marker file
exists and the process id recorded in it names a currently existing
process; a marker naming a non-existent process id yields `Ok(false)`,
after which `start_daemon` passes the liveness check, succeeds, and
overwrites the stale marker with the new daemon's pid. -/
theorem is_daemon_running_characterization (fs : FileSystem) (newPid : Nat) :
    (is_daemon_running fs = .ok true ↔
      ∃ content pid, fs.pidFile = some content ∧
        parsePid (firstLine content) = some pid ∧ pid ∈ fs.procs) ∧
    (∀ content pid, fs.pidFile = some content →
      parsePid (firstLine content) = some pid → pid ∉ fs.procs →
      is_daemon_running fs = .ok false ∧
      (start_daemon fs newPid).1 = .ok () ∧
      (start_daemon fs newPid).2.pidFile = some (toString newPid)) := by
  constructor
  · cases hpf : fs.pidFile with
    | none =>
      simp [is_daemon_running, hpf]
    | some content =>
      cases hp : parsePid (firstLine content) with
      | none => simp [is_daemon_running, hpf, hp]
      | some pid =>
        simp only [is_daemon_running, hpf, hp, Except.ok.injEq,
          decide_eq_true_eq]
        constructor
        · intro hmem
          exact ⟨content, pid, rfl, hp, hmem⟩
        · rintro ⟨c, p, hc, hpp, hmem⟩
          cases hc
          rw [hp] at hpp
          cases hpp
          exact hmem
  · intro content pid h1 h2 h3
    have hrun : is_daemon_running fs = .ok false := by
      simp [is_daemon_running, h1, h2, h3]
    exact ⟨hrun, by simp [start_daemon, hrun], by simp [start_daemon, hrun]⟩

theorem is_daemon_running_characterization_witness :
    is_daemon_running ⟨some "999\n", false, [42]⟩ = .ok false ∧
    (start_daemon ⟨some "999\n", false, [42]⟩ 7).1 = .ok () ∧
    (start_daemon ⟨some "999\n", false, [42]⟩ 7).2.pidFile =
      some (toString 7) :=
  (is_daemon_running_characterization ⟨some "999\n", false, [42]⟩ 7).2
    "999\n" 999 rfl (by decide) (by decide)

/-- C4: when a daemon instance is judged live (the marker file exists and
its recorded pid names an existing process), a second `start_daemon` call
returns the `AlreadyRunning`-style error and performs no filesystem
mutation: the marker file, the endpoint file and the process set are
returned exactly as found (and no cache exists yet to mutate). -/
theorem start_rejected_when_live (fs : FileSystem) (newPid : Nat)
    (h : is_daemon_running fs = .ok true) :
    start_daemon fs newPid = (.error "Daemon is already running", fs) := by
  simp [start_daemon, h]

theorem start_rejected_when_live_witness :
    start_daemon ⟨some "42\n", false, [42]⟩ 7 =
      (.error "Daemon is already running", ⟨some "42\n", false, [42]⟩) :=
  start_rejected_when_live ⟨some "42\n", false, [42]⟩ 7 rfl

/-- C5: a connection whose single request line does not decode into a
`DaemonCommand` is terminated with an I/O-level failure before any domain
logic: no response of any variant is written back, the cache is returned
untouched, nothing is enqueued to the worker, and the shutdown channel is
not signalled. -/
theorem malformed_command_rejected_before_domain_logic (request : Json)
    (cache : Cache) (reply : Option (Except String String))
    (h : decodeCommand request = none) :
    handle_client request cache reply =
      ⟨none, cache, [], false, some "Invalid command"⟩ := by
  simp [handle_client, h]

theorem malformed_command_rejected_before_domain_logic_witness :
    handle_client (Json.str "Bogus") [("K", "V")] none =
      ⟨none, [("K", "V")], [], false, some "Invalid command"⟩ :=
  malformed_command_rejected_before_domain_logic (Json.str "Bogus")
    [("K", "V")] none rfl

/-- C6: keys are unique and inserts are last-write-wins: processing
`AddSecret(k, v1)` then `AddSecret(k, v2)` end to end (both confirmed by
the worker) leaves exactly one record for `k` in the durable store, holding
the ciphertext of `v2`, and exactly one entry for `k` in the cache, holding
`v2`. -/
theorem add_secret_overwrites (encrypt : String → Except String String)
    (st : DaemonState) (k v1 v2 c1 c2 : String)
    (h1 : encrypt v1 = .ok c1) (h2 : encrypt v2 = .ok c2) :
    keyCount k ((processAddSecret encrypt
        (processAddSecret encrypt st k v1).1 k v2).1.store) = 1 ∧
    assocLookup k ((processAddSecret encrypt
        (processAddSecret encrypt st k v1).1 k v2).1.store) = some c2 ∧
    keyCount k ((processAddSecret encrypt
        (processAddSecret encrypt st k v1).1 k v2).1.cache) = 1 ∧
    assocLookup k ((processAddSecret encrypt
        (processAddSecret encrypt st k v1).1 k v2).1.cache) = some v2 := by
  simp [processAddSecret, dbWorkerStep, add_secret, h1, h2, handleCommand,
    keyCount_assocInsert, assocLookup_assocInsert]

theorem add_secret_overwrites_witness :
    keyCount "K" ((processAddSecret (fun s => Except.ok s)
        (processAddSecret (fun s => Except.ok s) ⟨[], []⟩ "K" "1").1
        "K" "2").1.store) = 1 ∧
    assocLookup "K" ((processAddSecret (fun s => Except.ok s)
        (processAddSecret (fun s => Except.ok s) ⟨[], []⟩ "K" "1").1
        "K" "2").1.store) = some "2" ∧
    keyCount "K" ((processAddSecret (fun s => Except.ok s)
        (processAddSecret (fun s => Except.ok s) ⟨[], []⟩ "K" "1").1
        "K" "2").1.cache) = 1 ∧
    assocLookup "K" ((processAddSecret (fun s => Except.ok s)
        (processAddSecret (fun s => Except.ok s) ⟨[], []⟩ "K" "1").1
        "K" "2").1.cache) = some "2" :=
  add_secret_overwrites (fun s => Except.ok s) ⟨[], []⟩ "K" "1" "2" "1" "2"
    rfl rfl

/-- C7: removal is idempotent: a `RemoveSecret(k)` for a key absent from
both the store and the cache is confirmed with a `Success` response and
leaves the daemon state (store and cache) exactly unchanged. -/
theorem remove_absent_key_idempotent (encrypt : String → Except String String)
    (st : DaemonState) (k : String)
    (hs : assocLookup k st.store = none) (hc : assocLookup k st.cache = none) :
    (processRemoveSecret encrypt st k).1 = st ∧
    (processRemoveSecret encrypt st k).2.response =
      some (.Success ("Removed secret: " ++ k)) := by
  have es := assocErase_of_lookup_none k st.store hs
  have ec := assocErase_of_lookup_none k st.cache hc
  constructor
  · simp [processRemoveSecret, dbWorkerStep, remove_secret, handleCommand,
      es, ec]
  · simp [processRemoveSecret, dbWorkerStep, remove_secret, handleCommand]

theorem remove_absent_key_idempotent_witness :
    (processRemoveSecret (fun s => Except.ok s)
        ⟨[("A", "x")], [("A", "y")]⟩ "B").1 = ⟨[("A", "x")], [("A", "y")]⟩ ∧
    (processRemoveSecret (fun s => Except.ok s)
        ⟨[("A", "x")], [("A", "y")]⟩ "B").2.response =
      some (.Success ("Removed secret: " ++ "B")) :=
  remove_absent_key_idempotent (fun s => Except.ok s)
    ⟨[("A", "x")], [("A", "y")]⟩ "B" rfl rfl

/-- C8: the wire protocol round-trips: every `DaemonCommand` variant, with
arbitrary string payloads, decodes back to itself after encoding, and every
`DaemonResponse` variant likewise. -/
theorem protocol_roundtrip :
    (∀ c : DaemonCommand, decodeCommand (encodeCommand c) = some c) ∧
    (∀ r : DaemonResponse, decodeResponse (encodeResponse r) = some r) := by
  constructor
  · intro c
    cases c <;> rfl
  · intro r
    cases r with
    | Secrets l => simp [encodeResponse, decodeResponse, decodePairs_map]
    | KeyList l => simp [encodeResponse, decodeResponse, decodeStrings_map]
    | Success m => rfl
    | Error m => rfl

/-- C9 counterexample: the shutdown path of `run_daemon` never waits for
the persistence worker to drain its queue (the worker thread is not
joined), and never stops the connection acceptor (its accept loop runs
until the process exits): neither step occurs in the performed shutdown
sequence. -/
theorem shutdown_skips_drain_wait_and_acceptor_stop :
    shutdownSequence.contains ShutdownEvent.waitWorkerDrain = false ∧
    shutdownSequence.contains ShutdownEvent.stopAcceptor = false := by
  decide

/-- C9 (amended): on shutdown triggered by an explicit `Shutdown` command
(no signal handler is installed), the daemon sends `Shutdown` to the
persistence worker and then removes the IPC endpoint file, in that order,
before the process terminates; it does not wait for the worker to drain
its queue and does not explicitly stop the connection acceptor — both
threads are terminated by the process exit itself. -/
theorem shutdown_sends_then_removes_then_exits :
    shutdownSequence.contains ShutdownEvent.sendWorkerShutdown = true ∧
    shutdownSequence.contains ShutdownEvent.removeEndpointFile = true ∧
    shutdownSequence.contains ShutdownEvent.processExit = true ∧
    shutdownSequence.indexOf ShutdownEvent.sendWorkerShutdown <
      shutdownSequence.indexOf ShutdownEvent.removeEndpointFile ∧
    shutdownSequence.indexOf ShutdownEvent.removeEndpointFile <
      shutdownSequence.indexOf ShutdownEvent.processExit ∧
    shutdownSequence.contains ShutdownEvent.waitWorkerDrain = false ∧
    shutdownSequence.contains ShutdownEvent.stopAcceptor = false := by
  decide

/-- C10: the response to `GetSecrets{shell}` does not depend on the shell
string — for any cache state and worker-reply environment, any two shell
values produce identical handler results — and the handler always answers
with the `Secrets` snapshot of the cache, never an `Error`. -/
theorem get_secrets_ignores_shell (cache : Cache)
    (reply : Option (Except String String)) (s1 s2 : String) :
    handleCommand cache reply (.GetSecrets s1) =
      handleCommand cache reply (.GetSecrets s2) ∧
    (handleCommand cache reply (.GetSecrets s1)).response =
      some (.Secrets cache) :=
  ⟨rfl, rfl⟩

end Sven
